import Mathlib

/-!
Verification of the SEO search-term generation agent.

This file shallowly embeds the two orchestration loops of the repository:

* `search_terms_agent.go`: the specialised `SearchTermAgent` with its local
  quality evaluator (`evaluateSearchTermQuality`, `calculateDiversity`,
  `isGoodEnough`, `identifyMissingPatterns`), its extraction step
  (`extractSearchTerms`) and its bounded refinement loop (`Generate`).
* the generic THINK/ACT/OBSERVE/REFINE driver (`RunAgent`, `observe`,
  `refine`).

External model calls are abstracted by an oracle `ℕ → Except String Response`
mapping the index of the call (in order of issue) to either a transport-level
failure or a structured chat response.  JSON decoding of tool-call arguments
(`json.Unmarshal`) is abstracted by a `parse` function from the raw argument
text to the decoded value (`none` models a decoding failure).  Go `float64`
arithmetic in the diversity score is modelled by exact rationals `ℚ`.
Go strings are modelled by Lean `String`; the handful of `strings.*` helpers
used by the source are re-implemented structurally below so that concrete
runs reduce inside the kernel.
-/

/-- Model of byte-wise prefix testing: `listLeads p l` is true when `p` is an
initial segment of `l`. -/
def listLeads : List Char → List Char → Bool
  | [], _ => true
  | _ :: _, [] => false
  | p :: ps, a :: as => (p == a) && listLeads ps as

/-- Model of substring search: `listOccurs pat l` is true when `pat` occurs
contiguously inside `l`. -/
def listOccurs (pat : List Char) : List Char → Bool
  | [] => pat.isEmpty
  | a :: as => listLeads pat (a :: as) || listOccurs pat as

/-- Model of Go `strings.Contains s sub`. -/
def strContains (s sub : String) : Bool := listOccurs sub.data s.data

/-- Model of Go `strings.HasPrefix s pre`. -/
def strHasLead (s pre : String) : Bool := listLeads pre.data s.data

/-- Model of Go `strings.ToLower` (character-wise lowering). -/
def lowerString (s : String) : String := ⟨s.data.map Char.toLower⟩

/-- Worker for `goFields`: splits a character list at whitespace, dropping
empty fields; `cur` accumulates the current field in reverse. -/
def splitWsAux : List Char → List Char → List String
  | [], cur => if cur.isEmpty then [] else [String.mk cur.reverse]
  | c :: cs, cur =>
    if c.isWhitespace then
      (if cur.isEmpty then [] else [String.mk cur.reverse]) ++ splitWsAux cs []
    else splitWsAux cs (c :: cur)

/-- Model of Go `strings.Fields`: the whitespace-delimited words of `s`. -/
def goFields (s : String) : List String := splitWsAux s.data []

/-- Model of Go `strings.Join` with separator `sep`. -/
def joinWith (sep : String) : List String → String
  | [] => ""
  | [a] => a
  | a :: as => a ++ sep ++ joinWith sep as

/-- Model of insertion into Go's `map[string]bool` word set: the set is
represented as a duplicate-free list, so its `length` is the map's size. -/
def insertWord (seen : List String) (w : String) : List String :=
  if seen.contains w then seen else seen ++ [w]

/-- Model of one entry of `Message.ToolCalls` in a chat response: the called
function's name and its raw (undecoded) argument text. -/
structure ToolCall where
  name : String
  arguments : String
deriving DecidableEq

/-- Model of one entry of `resp.Choices`, flattening `Message`: the tool calls
and the plain text content of the message. -/
structure Choice where
  toolCalls : List ToolCall
  text : String
deriving DecidableEq

/-- Model of `openrouter.ChatCompletionResponse`: the list of choices. -/
structure Response where
  choices : List Choice
deriving DecidableEq

/-- Source constant `MAX_REFINEMENT_ITERATIONS` (search_terms_agent.go line 28). -/
def MAX_REFINEMENT_ITERATIONS : ℕ := 4

/-- Source constant `TARGET_SEARCH_TERM_COUNT` (search_terms_agent.go line 29). -/
def TARGET_SEARCH_TERM_COUNT : ℕ := 15

/-- Diversity threshold used by `isGoodEnough`: the source literal `0.6`,
written as the exact rational 6/10. -/
def DIVERSITY_THRESHOLD : ℚ := mkRat 6 10

/-- Source struct `SearchTermQuality`: six SEO pattern-coverage flags, the
diversity score (`float64` modelled as `ℚ`) and the observed term count. -/
structure SearchTermQuality where
  HasComparisons : Bool
  HasQuestions : Bool
  HasBestLists : Bool
  HasValueTerms : Bool
  HasFormatMix : Bool
  HasUserIntent : Bool
  DiversityScore : ℚ
  TermCount : ℕ

/-- Comparison-pattern detector of `evaluateSearchTermQuality` (lines 266-269). -/
def isComparisonTerm (t : String) : Bool :=
  strContains t " vs " || strContains t " versus " ||
    strContains t "alternative" || strContains t "comparison"

/-- Question-pattern detector of `evaluateSearchTermQuality` (lines 272-274). -/
def isQuestionTerm (t : String) : Bool :=
  strHasLead t "where " || strHasLead t "how " ||
    strHasLead t "what " || strHasLead t "which "

/-- Best/top-list detector of `evaluateSearchTermQuality` (lines 278-280). -/
def isBestListTerm (t : String) : Bool :=
  strContains t "best " || strContains t "top " || strContains t "most popular"

/-- Value-term detector of `evaluateSearchTermQuality` (lines 284-286). -/
def isValueTerm (t : String) : Bool :=
  strContains t "unlimited" || strContains t "free" ||
    strContains t "trial" || strContains t "affordable"

/-- Format-mix detector of `evaluateSearchTermQuality` (lines 290-292). -/
def isFormatMixTerm (t : String) : Bool :=
  strContains t "audiobook" || strContains t "ebook" ||
    strContains t "book" || strContains t "magazine"

/-- User-intent detector of `evaluateSearchTermQuality` (line 296). -/
def isUserIntentTerm (t : String) : Bool := strContains t " for "

/-- Total number of whitespace-delimited words across all terms, as
accumulated by `calculateDiversity`'s `totalWords` counter. -/
def totalWordCount (terms : List String) : ℕ := ((terms.map goFields).flatten).length

/-- Source method `calculateDiversity`: the number of distinct words divided
by the total word count, or 0 when there are no words.  `float64` division is
modelled by exact rational division (`mkRat`). -/
def calculateDiversity (terms : List String) : ℚ :=
  let allWords := (terms.map goFields).flatten
  let wordSet := allWords.foldl insertWord []
  if allWords.length = 0 then 0 else mkRat wordSet.length allWords.length

/-- Source method `evaluateSearchTermQuality`: lower-cases every term, sets a
pattern flag when ANY term matches the category's detector, and fills in the
diversity score and term count. -/
def evaluateSearchTermQuality (terms : List String) : SearchTermQuality :=
  let termsLower := terms.map lowerString
  { HasComparisons := termsLower.any isComparisonTerm
    HasQuestions := termsLower.any isQuestionTerm
    HasBestLists := termsLower.any isBestListTerm
    HasValueTerms := termsLower.any isValueTerm
    HasFormatMix := termsLower.any isFormatMixTerm
    HasUserIntent := termsLower.any isUserIntentTerm
    DiversityScore := calculateDiversity termsLower
    TermCount := terms.length }

/-- The `patternCount` accumulation inside `isGoodEnough` (lines 334-352): the
number of set pattern flags, added up in source order. -/
def patternCount (q : SearchTermQuality) : ℕ :=
  (if q.HasComparisons then 1 else 0) + (if q.HasQuestions then 1 else 0) +
    (if q.HasBestLists then 1 else 0) + (if q.HasValueTerms then 1 else 0) +
    (if q.HasFormatMix then 1 else 0) + (if q.HasUserIntent then 1 else 0)

/-- Source method `isGoodEnough`: correct count, at least 4 of 6 patterns, and
diversity at least the 0.6 threshold. -/
def isGoodEnough (q : SearchTermQuality) : Bool :=
  if q.TermCount ≠ TARGET_SEARCH_TERM_COUNT then false
  else decide (4 ≤ patternCount q) && decide (DIVERSITY_THRESHOLD ≤ q.DiversityScore)

/-- The `missing` list built by `identifyMissingPatterns` (lines 360-379): one
gap description with a worked example per unset flag, in source order. -/
def missingPatternsList (q : SearchTermQuality) : List String :=
  (if q.HasComparisons then [] else
    ["- Comparison terms (e.g., \x27X vs Y\x27, \x27X alternative\x27)"]) ++
  (if q.HasQuestions then [] else
    ["- Question-based (e.g., \x27where to find X\x27, \x27how to get X\x27)"]) ++
  (if q.HasBestLists then [] else
    ["- Best/Top lists (e.g., \x27best X for Y\x27, \x27top X in 2025\x27)"]) ++
  (if q.HasValueTerms then [] else
    ["- Value-focused (e.g., \x27unlimited X\x27, \x27free X trial\x27)"]) ++
  (if q.HasFormatMix then [] else
    ["- Format combinations (e.g., \x27X audiobooks\x27, \x27X ebooks\x27)"]) ++
  (if q.HasUserIntent then [] else
    ["- User intent (e.g., \x27X for beginners\x27, \x27X for commute\x27)"])

/-- Source method `identifyMissingPatterns`: the newline-joined gap list, or
the sentinel message when no pattern is missing. -/
def identifyMissingPatterns (q : SearchTermQuality) : String :=
  let missing := missingPatternsList q
  if missing.isEmpty then "None - improve diversity and specificity!"
  else joinWith "\n" missing

/-- Source method `extractSearchTerms`: fails when the response has no choice
or no tool call, when the arguments do not decode, or when the decoded
`search_terms` array does not have exactly `TARGET_SEARCH_TERM_COUNT`
elements.  `parse` models `json.Unmarshal` into the `search_terms` field; the
count-mismatch message elides the interpolated counts of the source's
`fmt.Errorf`. -/
def extractSearchTerms (parse : String → Option (List String))
    (resp : Response) : Except String (List String) :=
  match resp.choices with
  | [] => Except.error "no tool call in response"
  | choice :: _ =>
    match choice.toolCalls with
    | [] => Except.error "no tool call in response"
    | tc :: _ =>
      match parse tc.arguments with
      | none => Except.error "failed to parse tool arguments"
      | some ts =>
        if ts.length ≠ TARGET_SEARCH_TERM_COUNT then
          Except.error "expected 15 terms, got a different count"
        else Except.ok ts

/-- One external call followed by extraction, as done by both
`generateInitialTerms` and `refineTermsIteration`: a transport failure of
`CreateChatCompletion` propagates; otherwise the response goes through
`extractSearchTerms`.  `k` is the index of the call in order of issue. -/
def callAndExtract (oracle : ℕ → Except String Response)
    (parse : String → Option (List String)) (k : ℕ) : Except String (List String) :=
  match oracle k with
  | Except.error e => Except.error e
  | Except.ok resp => extractSearchTerms parse resp

/-- The refinement loop of `Generate` (lines 94-114), in state-passing form:
`terms` is `a.currentTerms`, `iteration` is `a.iteration`, `calls` counts the
external calls issued so far (and indexes the oracle).  `fuel` only forces
termination; `Generate` supplies enough for the `iteration` guard to be the
binding bound.  Returns the final `(currentTerms, iteration, calls)`. -/
def refineLoop (oracle : ℕ → Except String Response)
    (parse : String → Option (List String)) :
    ℕ → List String → ℕ → ℕ → List String × ℕ × ℕ
  | 0, terms, iteration, calls => (terms, iteration, calls)
  | fuel + 1, terms, iteration, calls =>
    if iteration < MAX_REFINEMENT_ITERATIONS then
      if isGoodEnough (evaluateSearchTermQuality terms) then (terms, iteration, calls)
      else
        match callAndExtract oracle parse calls with
        | Except.error _ => (terms, iteration, calls + 1)
        | Except.ok refined => refineLoop oracle parse fuel refined (iteration + 1) (calls + 1)
    else (terms, iteration, calls)

/-- Source method `SearchTermAgent.Generate`: one initial generation call
(fatal on failure, with the error wrapped), then the bounded refinement loop
starting from iteration 0.  The second component is the total number of
external calls issued. -/
def Generate (oracle : ℕ → Except String Response)
    (parse : String → Option (List String)) : Except String (List String) × ℕ :=
  match callAndExtract oracle parse 0 with
  | Except.error e => (Except.error ("initial generation failed: " ++ e), 1)
  | Except.ok terms =>
    let r := refineLoop oracle parse MAX_REFINEMENT_ITERATIONS terms 0 1
    (Except.ok r.1, r.2.2)

/-- Model of `AgentConfig` for the generic driver.  `Temperature` (a
`float64`) and `Tools` (opaque openrouter values) only parameterize the
abstracted external call and are omitted; conversation history likewise only
feeds the external call (the source never appends to `state.messages` after
`initializeMessages`), so the driver's oracle is indexed by iteration. -/
structure AgentConfig where
  ModelName : String
  Providers : List String
  SystemPrompt : String
  UserPromptFormat : String
  MaxIterations : ℕ
  APIKey : String
  HTTPReferer : String
  XTitle : String

/-- Model of the driver's `state.result` (`interface\x7b\x7d` in the source): either
the decoded tool-call arguments (represented by their raw text, since JSON
decoding is abstracted) or a plain text reply. -/
inductive AgentRVal where
  | toolResult (arguments : String)
  | textResult (s : String)
deriving DecidableEq

/-- Model of `AgentState`: iteration counter, phase tag, accumulated result
and completion flag (conversation history abstracted into the oracle). -/
structure AgentState where
  iteration : ℕ
  phase : String
  result : Option AgentRVal
  completed : Bool

/-- Model of `AgentResult`: success flag, result data, iterations taken, and
the error (`none` models a nil Go error). -/
structure AgentResult where
  Success : Bool
  Result : Option AgentRVal
  Iterations : ℕ
  Error : Option String
deriving DecidableEq

/-- Source function `observe` (part_002 lines 188-223): no choice is an
error; a tool call completes the task with the decoded arguments (decoding
failure is an error); a non-empty text reply is stored as interim result and
the loop continues; anything else is an error.  `parseOk` abstracts whether
`json.Unmarshal` succeeds on the argument text. -/
def observe (parseOk : String → Bool) (st : AgentState) (resp : Response) :
    Except String AgentState :=
  match resp.choices with
  | [] => Except.error "no response choices received"
  | choice :: _ =>
    match choice.toolCalls with
    | tc :: _ =>
      if parseOk tc.arguments then
        Except.ok { st with phase := "OBSERVE",
                            result := some (AgentRVal.toolResult tc.arguments),
                            completed := true }
      else Except.error "failed to parse tool arguments"
    | [] =>
      if choice.text ≠ "" then
        Except.ok { st with phase := "OBSERVE",
                            result := some (AgentRVal.textResult choice.text) }
      else Except.error "unexpected response format"

/-- The driver loop of `RunAgent` (part_002 lines 82-111) in state-passing
form.  Each pass increments the iteration counter, issues one external call
(`act`; a failure is wrapped "action failed: "), runs `observe`, and `refine`
returns success as soon as the completion flag is set.  `fuel` only forces
termination; `RunAgent` supplies `cfg.MaxIterations`, making the
`st.iteration < cfg.MaxIterations` guard the binding bound.  The post-loop
code (lines 113-123) is `runLoopExit`. -/
def runLoopExit (st : AgentState) : AgentResult :=
  if !st.completed then
    { Success := false, Result := none, Iterations := st.iteration,
      Error := some "max iterations reached without completion" }
  else
    { Success := true, Result := st.result, Iterations := st.iteration, Error := none }

/-- Loop body of `RunAgent`; see `runLoopExit` for the post-loop code. -/
def runLoop (cfg : AgentConfig) (parseOk : String → Bool)
    (oracle : ℕ → Except String Response) : ℕ → AgentState → AgentResult
  | 0, st => runLoopExit st
  | fuel + 1, st =>
    if st.iteration < cfg.MaxIterations && !st.completed then
      let st1 : AgentState := { st with iteration := st.iteration + 1, phase := "THINK" }
      match oracle st.iteration with
      | Except.error e =>
        { Success := false, Result := none, Iterations := st1.iteration,
          Error := some ("action failed: " ++ e) }
      | Except.ok resp =>
        match observe parseOk { st1 with phase := "ACT" } resp with
        | Except.error e =>
          { Success := false, Result := none, Iterations := st1.iteration,
            Error := some e }
        | Except.ok st2 =>
          if st2.completed then
            { Success := true, Result := st2.result, Iterations := st2.iteration,
              Error := none }
          else runLoop cfg parseOk oracle fuel { st2 with phase := "REFINE" }
    else runLoopExit st

/-- Source function `RunAgent`: runs the THINK/ACT/OBSERVE/REFINE loop from a
fresh state (iteration 0, not completed) up to `cfg.MaxIterations` passes. -/
def RunAgent (cfg : AgentConfig) (parseOk : String → Bool)
    (oracle : ℕ → Except String Response) : AgentResult :=
  runLoop cfg parseOk oracle cfg.MaxIterations
    { iteration := 0, phase := "THINK", result := none, completed := false }

/-- Helper for stating claims about the generic driver: the external call at
one iteration succeeded with a first choice carrying no tool call and a
non-empty text reply (the "text-response-but-not-done" branch of `observe`). -/
def textOnly : Except String Response → Bool
  | Except.error _ => false
  | Except.ok resp =>
    match resp.choices with
    | [] => false
    | choice :: _ => choice.toolCalls.isEmpty && (choice.text != "")


/-- A successful extraction always carries exactly the target number of terms. -/
theorem extractSearchTerms_ok_length (parse : String → Option (List String))
    (resp : Response) (ts : List String)
    (h : extractSearchTerms parse resp = Except.ok ts) :
    ts.length = TARGET_SEARCH_TERM_COUNT := by
  unfold extractSearchTerms at h
  rcases resp with ⟨choices⟩
  cases choices with
  | nil => simp at h
  | cons choice rest =>
    cases hts : choice.toolCalls with
    | nil => simp [hts] at h
    | cons tc tcs =>
      simp only [hts] at h
      cases hp : parse tc.arguments with
      | none => simp [hp] at h
      | some l =>
        simp only [hp] at h
        by_cases hl : l.length = TARGET_SEARCH_TERM_COUNT
        · rw [if_neg (not_not_intro hl)] at h
          injection h with h2
          subst h2
          exact hl
        · simp [hl] at h

/-- A successful call-plus-extraction carries exactly the target count. -/
theorem callAndExtract_ok_length (oracle : ℕ → Except String Response)
    (parse : String → Option (List String)) (k : ℕ) (ts : List String)
    (h : callAndExtract oracle parse k = Except.ok ts) :
    ts.length = TARGET_SEARCH_TERM_COUNT := by
  unfold callAndExtract at h
  cases ho : oracle k with
  | error e => simp [ho] at h
  | ok resp =>
    simp only [ho] at h
    exact extractSearchTerms_ok_length parse resp ts h

/-- The refinement loop issues at most `fuel` further external calls. -/
theorem refineLoop_calls_le (oracle : ℕ → Except String Response)
    (parse : String → Option (List String)) :
    ∀ (fuel : ℕ) (terms : List String) (iteration calls : ℕ),
      (refineLoop oracle parse fuel terms iteration calls).2.2 ≤ calls + fuel := by
  intro fuel
  induction fuel with
  | zero => intro terms iteration calls; simp [refineLoop]
  | succ n ih =>
    intro terms iteration calls
    simp only [refineLoop]
    split
    · split
      · dsimp only; omega
      · split
        · dsimp only; omega
        · next refined _ =>
            have := ih refined (iteration + 1) (calls + 1)
            omega
    · dsimp only; omega

/-- The refinement loop never forgets a call already issued. -/
theorem refineLoop_calls_ge (oracle : ℕ → Except String Response)
    (parse : String → Option (List String)) :
    ∀ (fuel : ℕ) (terms : List String) (iteration calls : ℕ),
      calls ≤ (refineLoop oracle parse fuel terms iteration calls).2.2 := by
  intro fuel
  induction fuel with
  | zero => intro terms iteration calls; simp [refineLoop]
  | succ n ih =>
    intro terms iteration calls
    simp only [refineLoop]
    split
    · split
      · dsimp only; omega
      · split
        · dsimp only; omega
        · next refined _ =>
            have := ih refined (iteration + 1) (calls + 1)
            omega
    · dsimp only; omega

/-- C1: for every input and every sequence of external-call outcomes,
`SearchTermAgent.Generate` issues at least the one initial external call and
at most `MAX_REFINEMENT_ITERATIONS + 1 = 5` external calls in total,
regardless of the quality outcome. -/
theorem generate_call_budget (oracle : ℕ → Except String Response)
    (parse : String → Option (List String)) :
    1 ≤ (Generate oracle parse).2 ∧
      (Generate oracle parse).2 ≤ MAX_REFINEMENT_ITERATIONS + 1 ∧
      MAX_REFINEMENT_ITERATIONS = 4 := by
  cases h : callAndExtract oracle parse 0 with
  | error e =>
    unfold Generate
    rw [h]
    dsimp only
    exact ⟨le_refl 1, by decide, rfl⟩
  | ok terms =>
    have hle := refineLoop_calls_le oracle parse MAX_REFINEMENT_ITERATIONS terms 0 1
    have hge := refineLoop_calls_ge oracle parse MAX_REFINEMENT_ITERATIONS terms 0 1
    unfold Generate
    rw [h]
    dsimp only
    exact ⟨hge, by omega, rfl⟩

/-- The threshold constant is the rational value of the source literal 0.6. -/
theorem DIVERSITY_THRESHOLD_eq : DIVERSITY_THRESHOLD = (6 / 10 : ℚ) := by
  rw [DIVERSITY_THRESHOLD, Rat.mkRat_eq_divInt, Rat.divInt_eq_div]
  norm_num

/-- The source's incremental `patternCount` equals the number of `true` flags. -/
theorem patternCount_eq_count (q : SearchTermQuality) :
    patternCount q =
      ([q.HasComparisons, q.HasQuestions, q.HasBestLists, q.HasValueTerms,
        q.HasFormatMix, q.HasUserIntent].count true) := by
  rcases q with ⟨c, u, b, v, f, i, d, n⟩
  cases c <;> cases u <;> cases b <;> cases v <;> cases f <;> cases i <;> rfl

/-- C2: `isGoodEnough` accepts a quality report exactly when the term count is
15, at least 4 of the 6 pattern flags are set, and the diversity score is at
least 0.6. -/
theorem isGoodEnough_characterization (q : SearchTermQuality) :
    isGoodEnough q = true ↔
      (q.TermCount = 15 ∧
        4 ≤ ([q.HasComparisons, q.HasQuestions, q.HasBestLists, q.HasValueTerms,
              q.HasFormatMix, q.HasUserIntent].count true) ∧
        (6 / 10 : ℚ) ≤ q.DiversityScore) := by
  have h15 : TARGET_SEARCH_TERM_COUNT = 15 := rfl
  unfold isGoodEnough
  by_cases h : q.TermCount = 15
  · simp [h, h15, DIVERSITY_THRESHOLD_eq, patternCount_eq_count q]
  · simp [h, h15]

/-- Folding word insertion cannot shrink the seen set. -/
theorem foldl_insertWord_length_ge (l : List String) :
    ∀ seen : List String, seen.length ≤ (l.foldl insertWord seen).length := by
  induction l with
  | nil => intro seen; simp
  | cons w ws ih =>
    intro seen
    have h1 : seen.length ≤ (insertWord seen w).length := by
      unfold insertWord
      split <;> simp
    calc seen.length ≤ (insertWord seen w).length := h1
      _ ≤ ((ws.foldl insertWord (insertWord seen w))).length := ih _
      _ = ((w :: ws).foldl insertWord seen).length := by simp [List.foldl]

/-- Folding word insertion adds at most one entry per word. -/
theorem foldl_insertWord_length_le (l : List String) :
    ∀ seen : List String, (l.foldl insertWord seen).length ≤ seen.length + l.length := by
  induction l with
  | nil => intro seen; simp
  | cons w ws ih =>
    intro seen
    have h1 : (insertWord seen w).length ≤ seen.length + 1 := by
      unfold insertWord
      split <;> simp
    calc ((w :: ws).foldl insertWord seen).length
        = (ws.foldl insertWord (insertWord seen w)).length := by simp [List.foldl]
      _ ≤ (insertWord seen w).length + ws.length := ih _
      _ ≤ (seen.length + 1) + ws.length := by omega
      _ = seen.length + (w :: ws).length := by simp; omega

/-- A nonempty word list yields a nonempty word set. -/
theorem foldl_insertWord_length_pos (l : List String) (h : l ≠ []) :
    1 ≤ (l.foldl insertWord []).length := by
  cases l with
  | nil => exact absurd rfl h
  | cons w ws =>
    have h0 : insertWord [] w = [w] := by simp [insertWord]
    have := foldl_insertWord_length_ge ws [w]
    simpa [List.foldl, h0] using this

/-- C7: the diversity score of every term list lies in [0, 1], and it is 0
exactly when the total word count across all terms is 0. -/
theorem diversity_score_bounds (terms : List String) :
    0 ≤ calculateDiversity terms ∧ calculateDiversity terms ≤ 1 ∧
      (calculateDiversity terms = 0 ↔ totalWordCount terms = 0) := by
  unfold calculateDiversity totalWordCount
  set L := (terms.map goFields).flatten with hL
  by_cases h : L.length = 0
  · simp [h]
  · have hpos : 0 < (L.length : ℚ) := by
      have : 0 < L.length := Nat.pos_of_ne_zero h
      exact_mod_cast this
    have hmk : mkRat ((L.foldl insertWord []).length) L.length =
        ((L.foldl insertWord []).length : ℚ) / (L.length : ℚ) := by
      rw [Rat.mkRat_eq_divInt, Rat.divInt_eq_div]
      push_cast
      rfl
    have hde : L ≠ [] := by
      intro hnil
      exact h (by simp [hnil])
    have hone : 1 ≤ (L.foldl insertWord []).length := foldl_insertWord_length_pos L hde
    have hlele : (L.foldl insertWord []).length ≤ L.length := by
      have := foldl_insertWord_length_le L []
      simpa using this
    simp only [h, if_false, hmk]
    refine ⟨by positivity, ?_, ?_⟩
    · rw [div_le_one hpos]
      exact_mod_cast hlele
    · constructor
      · intro hz
        rcases div_eq_zero_iff.mp hz with hz1 | hz2
        · have : (L.foldl insertWord []).length = 0 := by exact_mod_cast hz1
          omega
        · have : L.length = 0 := by exact_mod_cast hz2
          omega
      · intro hz
        exact hz.elim

/-- Pattern coverage is monotone: implications between flags carry over to the
incremental pattern count. -/
theorem patternCount_mono (q q' : SearchTermQuality)
    (h1 : q.HasComparisons = true → q'.HasComparisons = true)
    (h2 : q.HasQuestions = true → q'.HasQuestions = true)
    (h3 : q.HasBestLists = true → q'.HasBestLists = true)
    (h4 : q.HasValueTerms = true → q'.HasValueTerms = true)
    (h5 : q.HasFormatMix = true → q'.HasFormatMix = true)
    (h6 : q.HasUserIntent = true → q'.HasUserIntent = true) :
    patternCount q ≤ patternCount q' := by
  have key : ∀ b b' : Bool, (b = true → b' = true) →
      (if b then 1 else 0) ≤ (if b' then (1 : ℕ) else 0) := by decide
  have k1 := key _ _ h1
  have k2 := key _ _ h2
  have k3 := key _ _ h3
  have k4 := key _ _ h4
  have k5 := key _ _ h5
  have k6 := key _ _ h6
  unfold patternCount
  omega

/-- C8: the good-enough predicate is monotone in pattern coverage and
diversity: turning on further pattern flags or raising the diversity score
(keeping the term count fixed) preserves acceptance. -/
theorem goodEnough_monotone (q q' : SearchTermQuality)
    (hgood : isGoodEnough q = true)
    (hcount : q'.TermCount = q.TermCount)
    (h1 : q.HasComparisons = true → q'.HasComparisons = true)
    (h2 : q.HasQuestions = true → q'.HasQuestions = true)
    (h3 : q.HasBestLists = true → q'.HasBestLists = true)
    (h4 : q.HasValueTerms = true → q'.HasValueTerms = true)
    (h5 : q.HasFormatMix = true → q'.HasFormatMix = true)
    (h6 : q.HasUserIntent = true → q'.HasUserIntent = true)
    (hdiv : q.DiversityScore ≤ q'.DiversityScore) :
    isGoodEnough q' = true := by
  unfold isGoodEnough at hgood ⊢
  by_cases hc : q.TermCount = TARGET_SEARCH_TERM_COUNT
  · simp only [hc, ne_eq, not_true_eq_false, if_false, Bool.and_eq_true,
      decide_eq_true_eq] at hgood
    have hc' : q'.TermCount = TARGET_SEARCH_TERM_COUNT := by rw [hcount, hc]
    simp only [hc', ne_eq, not_true_eq_false, if_false, Bool.and_eq_true,
      decide_eq_true_eq]
    refine ⟨le_trans hgood.1 (patternCount_mono q q' h1 h2 h3 h4 h5 h6), ?_⟩
    exact le_trans hgood.2 hdiv
  · simp [hc] at hgood

/-- Concrete instance of C8: a report with four patterns and diversity 6/10 is
good enough, and so is its pointwise improvement with a fifth pattern and
diversity 7/10. -/
theorem goodEnough_monotone_witness :
    isGoodEnough ⟨true, true, true, true, false, false, mkRat 6 10, 15⟩ = true ∧
      isGoodEnough ⟨true, true, true, true, true, false, mkRat 7 10, 15⟩ = true :=
  ⟨by decide,
    goodEnough_monotone ⟨true, true, true, true, false, false, mkRat 6 10, 15⟩
      ⟨true, true, true, true, true, false, mkRat 7 10, 15⟩
      (by decide) rfl (by decide) (by decide) (by decide) (by decide) (by decide)
      (by decide) (by decide)⟩

/-- Number of unset pattern flags of a quality report. -/
def unsetFlagCount (q : SearchTermQuality) : ℕ :=
  ([q.HasComparisons, q.HasQuestions, q.HasBestLists, q.HasValueTerms,
    q.HasFormatMix, q.HasUserIntent].count false)

/-- C9: `identifyMissingPatterns` produces one gap description per unset
pattern flag (in the fixed source order), falls back to the single sentinel
message when every flag is set, and never returns an empty string. -/
theorem identifyMissingPatterns_spec (q : SearchTermQuality) :
    (missingPatternsList q).length = unsetFlagCount q ∧
      (unsetFlagCount q = 0 →
        identifyMissingPatterns q = "None - improve diversity and specificity!") ∧
      identifyMissingPatterns q ≠ "" := by
  have e1 : missingPatternsList q = missingPatternsList
      ⟨q.HasComparisons, q.HasQuestions, q.HasBestLists, q.HasValueTerms,
        q.HasFormatMix, q.HasUserIntent, 0, 0⟩ := rfl
  have e2 : identifyMissingPatterns q = identifyMissingPatterns
      ⟨q.HasComparisons, q.HasQuestions, q.HasBestLists, q.HasValueTerms,
        q.HasFormatMix, q.HasUserIntent, 0, 0⟩ := rfl
  have e3 : unsetFlagCount q = unsetFlagCount
      ⟨q.HasComparisons, q.HasQuestions, q.HasBestLists, q.HasValueTerms,
        q.HasFormatMix, q.HasUserIntent, 0, 0⟩ := rfl
  rw [e1, e2, e3]
  cases h1 : q.HasComparisons <;> cases h2 : q.HasQuestions <;>
    cases h3 : q.HasBestLists <;> cases h4 : q.HasValueTerms <;>
    cases h5 : q.HasFormatMix <;> cases h6 : q.HasUserIntent <;> decide

/-- Concrete instance of C9: with every pattern flag set the reporter returns
the sentinel message. -/
theorem identifyMissingPatterns_spec_witness :
    identifyMissingPatterns ⟨true, true, true, true, true, true, 0, 0⟩ =
      "None - improve diversity and specificity!" :=
  (identifyMissingPatterns_spec ⟨true, true, true, true, true, true, 0, 0⟩).2.1
    (by decide)

/-- C3: once the initial generation call has succeeded (necessarily with a
correctly-sized term set), `Generate` reports no error and returns whatever
candidate set the refinement loop ends with; and whenever a refinement call
fails — a transport failure, a missing tool call, undecodable arguments, or a
wrong term count — the loop stops immediately, leaving the current candidate
set and the iteration counter unchanged. -/
theorem refinement_failure_soft (oracle : ℕ → Except String Response)
    (parse : String → Option (List String)) :
    (∀ ts0 : List String, callAndExtract oracle parse 0 = Except.ok ts0 →
      (Generate oracle parse).1 =
        Except.ok (refineLoop oracle parse MAX_REFINEMENT_ITERATIONS ts0 0 1).1) ∧
    (∀ (fuel : ℕ) (terms : List String) (iteration calls : ℕ) (e : String),
      iteration < MAX_REFINEMENT_ITERATIONS →
      isGoodEnough (evaluateSearchTermQuality terms) = false →
      callAndExtract oracle parse calls = Except.error e →
      refineLoop oracle parse (fuel + 1) terms iteration calls =
        (terms, iteration, calls + 1)) := by
  constructor
  · intro ts0 h
    unfold Generate
    rw [h]
  · intro fuel terms iteration calls e hlt hgood herr
    simp [refineLoop, hlt, hgood, herr]

/-- Concrete instance of C3: the initial call yields 15 terms, the first
refinement call fails with a transport error, and `Generate` returns the
initial set with no error after 2 calls. -/
theorem refinement_failure_soft_witness :
    ((Generate
        (fun k => if k = 0 then
          Except.ok ⟨[⟨[⟨"submit_search_terms", "args3"⟩], ""⟩]⟩
         else Except.error "refinement transport failure")
        (fun _ => some (List.replicate 15 "gamma"))).1 =
      Except.ok (refineLoop
        (fun k => if k = 0 then
          Except.ok ⟨[⟨[⟨"submit_search_terms", "args3"⟩], ""⟩]⟩
         else Except.error "refinement transport failure")
        (fun _ => some (List.replicate 15 "gamma"))
        MAX_REFINEMENT_ITERATIONS (List.replicate 15 "gamma") 0 1).1) ∧
    refineLoop
        (fun k => if k = 0 then
          Except.ok ⟨[⟨[⟨"submit_search_terms", "args3"⟩], ""⟩]⟩
         else Except.error "refinement transport failure")
        (fun _ => some (List.replicate 15 "gamma"))
        4 (List.replicate 15 "gamma") 0 1 =
      (List.replicate 15 "gamma", 0, 2) :=
  ⟨(refinement_failure_soft _ _).1 (List.replicate 15 "gamma") rfl,
    (refinement_failure_soft _ _).2 3 (List.replicate 15 "gamma") 0 1
      "refinement transport failure" (by decide) (by decide) rfl⟩

/-- C4: when the initial call-plus-extraction fails — the call errors, or the
response carries no tool call, undecodable arguments, or a term list whose
length is not 15 — `Generate` returns a wrapped error, no terms, and has
issued exactly 1 external call (no refinement call). -/
theorem initial_failure_hard (oracle : ℕ → Except String Response)
    (parse : String → Option (List String)) (e : String)
    (h : callAndExtract oracle parse 0 = Except.error e) :
    Generate oracle parse =
      (Except.error ("initial generation failed: " ++ e), 1) := by
  unfold Generate
  rw [h]

/-- Concrete instance of C4: the initial call succeeds but returns only 12
terms, so `Generate` fails hard after exactly 1 call. -/
theorem initial_failure_hard_witness :
    Generate
        (fun _ => Except.ok ⟨[⟨[⟨"submit_search_terms", "args4"⟩], ""⟩]⟩)
        (fun _ => some (List.replicate 12 "delta")) =
      (Except.error ("initial generation failed: " ++
        "expected 15 terms, got a different count"), 1) :=
  initial_failure_hard _ _ "expected 15 terms, got a different count" rfl

/-- The refinement loop preserves the count invariant: it only ever replaces
the candidate set by a set that passed the extraction count check. -/
theorem refineLoop_length_preserved (oracle : ℕ → Except String Response)
    (parse : String → Option (List String)) :
    ∀ (fuel : ℕ) (terms : List String) (iteration calls : ℕ),
      terms.length = TARGET_SEARCH_TERM_COUNT →
      (refineLoop oracle parse fuel terms iteration calls).1.length =
        TARGET_SEARCH_TERM_COUNT := by
  intro fuel
  induction fuel with
  | zero => intro terms iteration calls h; simpa [refineLoop] using h
  | succ n ih =>
    intro terms iteration calls h
    simp only [refineLoop]
    split
    · split
      · exact h
      · split
        · exact h
        · next refined hr =>
            exact ih refined (iteration + 1) (calls + 1)
              (callAndExtract_ok_length oracle parse calls refined hr)
    · exact h

/-- C6: any candidate set that passed the extraction count check has exactly
`TARGET_SEARCH_TERM_COUNT = 15` elements, and whenever `Generate` returns
with no error the returned term list has exactly 15 elements. -/
theorem term_count_invariant (oracle : ℕ → Except String Response)
    (parse : String → Option (List String)) :
    (∀ (resp : Response) (ts : List String),
      extractSearchTerms parse resp = Except.ok ts →
        ts.length = TARGET_SEARCH_TERM_COUNT) ∧
    (∀ (ts : List String) (n : ℕ),
      Generate oracle parse = (Except.ok ts, n) → ts.length = 15) := by
  constructor
  · exact fun resp ts h => extractSearchTerms_ok_length parse resp ts h
  · intro ts n h
    unfold Generate at h
    cases hc : callAndExtract oracle parse 0 with
    | error e => rw [hc] at h; simp at h
    | ok ts0 =>
      rw [hc] at h
      dsimp only at h
      have hts : ts = (refineLoop oracle parse MAX_REFINEMENT_ITERATIONS ts0 0 1).1 := by
        have := congrArg Prod.fst h
        dsimp at this
        injection this with h2
        exact h2.symm
      rw [hts]
      exact refineLoop_length_preserved oracle parse MAX_REFINEMENT_ITERATIONS ts0 0 1
        (callAndExtract_ok_length oracle parse 0 ts0 hc)

/-- Concrete instance of C6: a run whose initial call returns 15 terms and
whose refinement call fails returns a 15-element list with no error. -/
theorem term_count_invariant_witness :
    (List.replicate 15 "epsilon").length = 15 :=
  (term_count_invariant
      (fun k => if k = 0 then
        Except.ok ⟨[⟨[⟨"submit_search_terms", "args6"⟩], ""⟩]⟩
       else Except.error "halt")
      (fun _ => some (List.replicate 15 "epsilon"))).2
    (List.replicate 15 "epsilon") 2 rfl

/-- C5 counterexample: an initial call that returns 15 low-quality terms
followed by a failing refinement call.  `Generate` issues 2 external calls
(so exactly one refinement call is issued), yet the final iteration counter
is 0, not 1: the counter is NOT incremented for the issued-but-failed
refinement call, refuting "incremented exactly once for each refinement call
issued". -/
theorem iteration_counter_counterexample :
    Generate
        (fun k => if k = 0 then
          Except.ok ⟨[⟨[⟨"submit_search_terms", "args5"⟩], ""⟩]⟩
         else Except.error "model unavailable")
        (fun _ => some (List.replicate 15 "alpha")) =
      (Except.ok (List.replicate 15 "alpha"), 2) ∧
    (refineLoop
        (fun k => if k = 0 then
          Except.ok ⟨[⟨[⟨"submit_search_terms", "args5"⟩], ""⟩]⟩
         else Except.error "model unavailable")
        (fun _ => some (List.replicate 15 "alpha"))
        MAX_REFINEMENT_ITERATIONS (List.replicate 15 "alpha") 0 1).2.1 = 0 :=
  ⟨rfl, rfl⟩

/-- C5 (amended): the iteration counter starts at 0, is incremented exactly
once per successful refinement call and not for the initial call; a failed
refinement call is issued without incrementing the counter and terminates
the loop; and the loop is terminal once the counter reaches
`MAX_REFINEMENT_ITERATIONS`. -/
theorem iteration_counter_amended (oracle : ℕ → Except String Response)
    (parse : String → Option (List String)) :
    (∀ ts0 : List String, callAndExtract oracle parse 0 = Except.ok ts0 →
      Generate oracle parse =
        (Except.ok (refineLoop oracle parse MAX_REFINEMENT_ITERATIONS ts0 0 1).1,
          (refineLoop oracle parse MAX_REFINEMENT_ITERATIONS ts0 0 1).2.2)) ∧
    (∀ (fuel : ℕ) (terms : List String) (iteration calls : ℕ) (refined : List String),
      iteration < MAX_REFINEMENT_ITERATIONS →
      isGoodEnough (evaluateSearchTermQuality terms) = false →
      callAndExtract oracle parse calls = Except.ok refined →
      refineLoop oracle parse (fuel + 1) terms iteration calls =
        refineLoop oracle parse fuel refined (iteration + 1) (calls + 1)) ∧
    (∀ (fuel : ℕ) (terms : List String) (iteration calls : ℕ) (e : String),
      iteration < MAX_REFINEMENT_ITERATIONS →
      isGoodEnough (evaluateSearchTermQuality terms) = false →
      callAndExtract oracle parse calls = Except.error e →
      refineLoop oracle parse (fuel + 1) terms iteration calls =
        (terms, iteration, calls + 1)) ∧
    (∀ (fuel : ℕ) (terms : List String) (iteration calls : ℕ),
      MAX_REFINEMENT_ITERATIONS ≤ iteration →
      refineLoop oracle parse fuel terms iteration calls =
        (terms, iteration, calls)) := by
  refine ⟨?_, ?_, ?_, ?_⟩
  · intro ts0 h
    unfold Generate
    rw [h]
  · intro fuel terms iteration calls refined hlt hgood hok
    simp [refineLoop, hlt, hgood, hok]
  · intro fuel terms iteration calls e hlt hgood herr
    simp [refineLoop, hlt, hgood, herr]
  · intro fuel terms iteration calls hge
    cases fuel with
    | zero => rfl
    | succ n => simp [refineLoop, Nat.not_lt.mpr hge]

/-- Concrete instance of the amended C5: at the configured maximum the loop
is terminal, returning its state unchanged without issuing a call. -/
theorem iteration_counter_amended_witness :
    refineLoop (fun _ => Except.error "down") (fun _ => none) 2 ["tau"] 4 5 =
      (["tau"], 4, 5) :=
  (iteration_counter_amended (fun _ => Except.error "down") (fun _ => none)).2.2.2
    2 ["tau"] 4 5 (by decide)

/-- Case analysis of a successful `observe`: either a tool call completed the
task with the decoded arguments as result, or a non-empty text reply was
stored without completing; either way the iteration counter is untouched. -/
theorem observe_ok_cases (parseOk : String → Bool) (st : AgentState)
    (resp : Response) (st2 : AgentState)
    (h : observe parseOk st resp = Except.ok st2) :
    (st2.completed = true ∧ st2.iteration = st.iteration ∧
      ∃ a, st2.result = some (AgentRVal.toolResult a)) ∨
    (st2.completed = st.completed ∧ st2.iteration = st.iteration ∧
      ∃ s, st2.result = some (AgentRVal.textResult s)) := by
  unfold observe at h
  rcases resp with ⟨choices⟩
  cases choices with
  | nil => simp at h
  | cons choice rest =>
    dsimp only at h
    cases htc : choice.toolCalls with
    | cons tc tcs =>
      rw [htc] at h
      dsimp only at h
      by_cases hp : parseOk tc.arguments = true
      · rw [if_pos hp] at h
        injection h with h2
        subst h2
        exact Or.inl ⟨rfl, rfl, tc.arguments, rfl⟩
      · rw [if_neg hp] at h
        simp at h
    | nil =>
      rw [htc] at h
      dsimp only at h
      by_cases ht : choice.text = ""
      · simp [ht] at h
      · rw [if_pos ht] at h
        injection h with h2
        subst h2
        exact Or.inr ⟨rfl, rfl, choice.text, rfl⟩

/-- When the driver loop starts from a not-yet-completed state and reports
success, the result is a decoded tool-call payload and the error is nil. -/
theorem runLoop_success_shape (cfg : AgentConfig) (parseOk : String → Bool)
    (oracle : ℕ → Except String Response) :
    ∀ (fuel : ℕ) (st : AgentState), st.completed = false →
      (runLoop cfg parseOk oracle fuel st).Success = true →
      (∃ a, (runLoop cfg parseOk oracle fuel st).Result =
          some (AgentRVal.toolResult a)) ∧
        (runLoop cfg parseOk oracle fuel st).Error = none := by
  intro fuel
  induction fuel with
  | zero =>
    intro st hc hs
    simp [runLoop, runLoopExit, hc] at hs
  | succ n ih =>
    intro st hc
    simp only [runLoop]
    split
    · split
      · intro hs
        simp at hs
      · split
        · intro hs
          simp at hs
        · next st2 hobs =>
            split
            · next hdone =>
                intro _
                rcases observe_ok_cases parseOk _ _ st2 hobs with
                  ⟨_, _, a, hres⟩ | ⟨hcomp, _, _⟩
                · exact ⟨⟨a, hres⟩, rfl⟩
                · rw [hc] at hcomp
                  rw [hcomp] at hdone
                  exact absurd hdone (by simp)
            · next hdone =>
                have hc2 : ({ (st2 : AgentState) with phase := "REFINE" }).completed = false := by
                  simp only [Bool.not_eq_true] at hdone
                  exact hdone
                exact ih _ hc2
    · intro hs
      simp [runLoopExit, hc] at hs

/-- When the driver loop reports failure, the result field is nil (no
partial-result fallback) and a non-nil error is carried. -/
theorem runLoop_failure_shape (cfg : AgentConfig) (parseOk : String → Bool)
    (oracle : ℕ → Except String Response) :
    ∀ (fuel : ℕ) (st : AgentState),
      (runLoop cfg parseOk oracle fuel st).Success = false →
      (runLoop cfg parseOk oracle fuel st).Result = none ∧
        (runLoop cfg parseOk oracle fuel st).Error ≠ none := by
  intro fuel
  induction fuel with
  | zero =>
    intro st
    unfold runLoop runLoopExit
    split
    · intro _
      exact ⟨rfl, by simp⟩
    · intro hs
      simp at hs
  | succ n ih =>
    intro st
    simp only [runLoop]
    split
    · split
      · intro _
        exact ⟨rfl, by simp⟩
      · split
        · intro _
          exact ⟨rfl, by simp⟩
        · split
          · intro hs
            simp at hs
          · exact ih _
    · unfold runLoopExit
      split
      · intro _
        exact ⟨rfl, by simp⟩
      · intro hs
        simp at hs

/-- One pass of the driver loop over a text-only response: the iteration
counter advances, the text is stored as interim result, and the loop
continues without completing. -/
theorem runLoop_text_step (cfg : AgentConfig) (parseOk : String → Bool)
    (oracle : ℕ → Except String Response) (n : ℕ) (st : AgentState)
    (hc : st.completed = false) (hlt : st.iteration < cfg.MaxIterations)
    (choice : Choice) (rest : List Choice)
    (ho : oracle st.iteration = Except.ok ⟨choice :: rest⟩)
    (htc : choice.toolCalls = []) (hne : choice.text ≠ "") :
    runLoop cfg parseOk oracle (n + 1) st =
      runLoop cfg parseOk oracle n
        { iteration := st.iteration + 1, phase := "REFINE",
          result := some (AgentRVal.textResult choice.text),
          completed := st.completed } := by
  have hguard : (decide (st.iteration < cfg.MaxIterations) && !st.completed) = true := by
    simp [hc, hlt]
  simp only [runLoop]
  rw [if_pos hguard, ho]
  dsimp only
  simp only [observe, htc]
  rw [if_pos hne]
  dsimp only
  rw [if_neg (by simp [hc])]

/-- If every external call yields a text-only reply, the driver exhausts its
iteration budget and returns the distinct max-iterations failure with no
result data. -/
theorem runLoop_text_exhausts (cfg : AgentConfig) (parseOk : String → Bool)
    (oracle : ℕ → Except String Response)
    (htext : ∀ i, textOnly (oracle i) = true) :
    ∀ (fuel : ℕ) (st : AgentState), st.completed = false →
      st.iteration + fuel = cfg.MaxIterations →
      runLoop cfg parseOk oracle fuel st =
        { Success := false, Result := none, Iterations := cfg.MaxIterations,
          Error := some "max iterations reached without completion" } := by
  intro fuel
  induction fuel with
  | zero =>
    intro st hc hiter
    simp only [runLoop, runLoopExit]
    rw [if_pos (by simp [hc])]
    rw [← hiter]
    simp
  | succ n ih =>
    intro st hc hiter
    have htx := htext st.iteration
    cases ho : oracle st.iteration with
    | error e => rw [ho] at htx; simp [textOnly] at htx
    | ok resp =>
      rw [ho] at htx
      rcases resp with ⟨choices⟩
      cases choices with
      | nil => simp [textOnly] at htx
      | cons choice rest =>
        simp only [textOnly] at htx
        rw [Bool.and_eq_true] at htx
        obtain ⟨h1, h2⟩ := htx
        have htc : choice.toolCalls = [] := by
          simpa using h1
        have hne : choice.text ≠ "" := by
          simpa using h2
        rw [runLoop_text_step cfg parseOk oracle n st hc (by omega) choice rest ho htc hne]
        rw [hc]
        exact ih _ rfl (by simp; omega)

/-- C10: the generic driver either succeeds with the completion flag set,
carrying the decoded structured tool result and a nil error, or returns a
failure that carries a non-nil error and no result data; in particular, when
every call yields only text (never a tool call), the driver runs exactly
`MaxIterations` iterations and returns the distinct max-iterations failure,
with no fallback to the interim text result. -/
theorem runAgent_terminal_behavior (cfg : AgentConfig) (parseOk : String → Bool)
    (oracle : ℕ → Except String Response) :
    ((RunAgent cfg parseOk oracle).Success = true →
      (∃ a, (RunAgent cfg parseOk oracle).Result = some (AgentRVal.toolResult a)) ∧
        (RunAgent cfg parseOk oracle).Error = none) ∧
    ((RunAgent cfg parseOk oracle).Success = false →
      (RunAgent cfg parseOk oracle).Result = none ∧
        (RunAgent cfg parseOk oracle).Error ≠ none) ∧
    ((∀ i, textOnly (oracle i) = true) →
      RunAgent cfg parseOk oracle =
        { Success := false, Result := none, Iterations := cfg.MaxIterations,
          Error := some "max iterations reached without completion" }) := by
  refine ⟨?_, ?_, ?_⟩
  · exact runLoop_success_shape cfg parseOk oracle cfg.MaxIterations _ rfl
  · exact runLoop_failure_shape cfg parseOk oracle cfg.MaxIterations _
  · intro htext
    exact runLoop_text_exhausts cfg parseOk oracle htext cfg.MaxIterations _ rfl
      (by simp)

/-- Concrete instance of C10: with `MaxIterations = 2` and every call
returning only the text "thinking", the driver fails after 2 iterations with
the max-iterations error and a nil result. -/
theorem runAgent_terminal_behavior_witness :
    RunAgent ⟨"m", [], "sys", "user %s", 2, "key", "ref", "title"⟩
        (fun _ => false) (fun _ => Except.ok ⟨[⟨[], "thinking"⟩]⟩) =
      { Success := false, Result := none, Iterations := 2,
        Error := some "max iterations reached without completion" } :=
  (runAgent_terminal_behavior ⟨"m", [], "sys", "user %s", 2, "key", "ref", "title"⟩
      (fun _ => false) (fun _ => Except.ok ⟨[⟨[], "thinking"⟩]⟩)).2.2
    (fun _ => rfl)

/-- Concrete instance of C2: 15 terms, four patterns covered, diversity 1. -/
theorem isGoodEnough_characterization_witness :
    isGoodEnough ⟨true, true, true, true, false, false, 1, 15⟩ = true :=
  (isGoodEnough_characterization ⟨true, true, true, true, false, false, 1, 15⟩).mpr
    ⟨rfl, by decide, by norm_num⟩

/-- Concrete instance of C7: an empty term has no words, so diversity is 0;
and the score of a nonempty term list is nonnegative. -/
theorem diversity_score_bounds_witness :
    calculateDiversity [""] = 0 ∧ 0 ≤ calculateDiversity ["best books"] :=
  ⟨(diversity_score_bounds [""]).2.2.mpr (by decide),
    (diversity_score_bounds ["best books"]).1⟩
